import Mathlib

/-!
Verification of the AI-provider adapter layer of the repository:
the provider factory (src/agent/ai/factory.py), the OpenAI client
(src/agent/ai/openai_client.py), the Gemini client
(src/agent/ai/gemini_client.py), the mock client
(src/agent/ai/mock_client.py), and the worker-finished handler of the
GUI (src/ui/main_window.py).

Python values that flow through the adapters (vendor SDK responses,
result dictionaries) are embedded as the inductive type PyVal below;
Python exceptions are embedded as Except, and Python functions are
translated into total Lean functions over these types.
-/

/-- Embedding of the Python runtime values the adapter code inspects:
None, strings, lists, dicts with string keys, and objects with named
attributes.  An object also carries the outcome of calling str() on it:
ok gives the rendered text, error models a raised exception carrying the
message of that exception. -/
inductive PyVal where
  | vNone : PyVal
  | vStr : String → PyVal
  | vList : List PyVal → PyVal
  | vDict : List (String × PyVal) → PyVal
  | vObj : List (String × PyVal) → Except String String → PyVal

/-- Python truthiness for the embedded values: None is falsy, a string is
truthy iff non-empty, a list or dict is truthy iff non-empty, and a plain
object is always truthy. -/
def pyTruthy : PyVal → Bool
  | .vNone => false
  | .vStr s => !s.isEmpty
  | .vList l => !l.isEmpty
  | .vDict d => !d.isEmpty
  | .vObj _ _ => true

/-- Python dict lookup d.get(key): first entry with the given key. -/
def dictGet : List (String × PyVal) → String → Option PyVal
  | [], _ => none
  | (k, v) :: rest, key => if k = key then some v else dictGet rest key

/-- Python sep.join semantics on a list of strings. -/
def joinSep (sep : String) : List String → String
  | [] => ""
  | [x] => x
  | x :: y :: xs => x ++ sep ++ joinSep sep (y :: xs)

mutual
/-- Python repr of an embedded value; error models str()/repr() raising. -/
def pyRepr : PyVal → Except String String
  | .vNone => .ok "None"
  | .vStr s => .ok ("\x27" ++ s ++ "\x27")
  | .vList l => (pyReprList l).map (fun ps => "[" ++ joinSep ", " ps ++ "]")
  | .vDict d => (pyReprDict d).map (fun ps => "\x7b" ++ joinSep ", " ps ++ "\x7d")
  | .vObj _ r => r

/-- repr of the elements of a list, propagating a raised exception. -/
def pyReprList : List PyVal → Except String (List String)
  | [] => .ok []
  | x :: xs => do pure ((← pyRepr x) :: (← pyReprList xs))

/-- repr of the entries of a dict, propagating a raised exception. -/
def pyReprDict : List (String × PyVal) → Except String (List String)
  | [] => .ok []
  | (k, v) :: xs =>
      do pure (("\x27" ++ k ++ "\x27: " ++ (← pyRepr v)) :: (← pyReprDict xs))
end

/-- Python str() of an embedded value: a string renders as itself, every
other value renders as its repr. -/
def pyStr : PyVal → Except String String
  | .vStr s => .ok s
  | v => pyRepr v

/-- Python whitespace test used by str.strip and the regex class \s
(ASCII part). -/
def pyIsSpaceC (c : Char) : Bool :=
  c = ' ' || c = Char.ofNat 9 || c = Char.ofNat 10 || c = Char.ofNat 13 ||
  c = Char.ofNat 11 || c = Char.ofNat 12

/-- Python str.strip(): drop whitespace from both ends. -/
def pyStrip (s : String) : String :=
  String.mk (((s.data.dropWhile pyIsSpaceC).reverse.dropWhile pyIsSpaceC).reverse)

/-- Python str.lower() restricted to ASCII letters, which is all the
keyword matching in the source uses. -/
def pyLower (s : String) : String :=
  String.mk (s.data.map Char.toLower)

/-- needle.isPrefixOf-style check used for substring search, over char
lists. -/
def subOf (needle : List Char) : List Char → Bool
  | [] => needle.isEmpty
  | c :: rest => needle.isPrefixOf (c :: rest) || subOf needle rest

/-- Python membership test needle in hay on strings. -/
def pyIn (needle hay : String) : Bool :=
  subOf needle.data hay.data

/-- Python text.split on a newline separator, keeping empty pieces; the
split of the empty string is the singleton list of the empty string. -/
def splitNLAux : List Char → List Char → List String
  | [], acc => [String.mk acc.reverse]
  | c :: rest, acc =>
      if c = Char.ofNat 10 then String.mk acc.reverse :: splitNLAux rest []
      else splitNLAux rest (c :: acc)

/-- Python text.split of a string on newlines. -/
def pySplitNL (s : String) : List String :=
  splitNLAux s.data []

/-- The normalized result union produced by the OpenAI and mock clients
(the ResponseDict of openai_client.py, keyed by its type field). -/
inductive AIResult where
  | general (response : String)
  | productSearch (query : String) (response : String)
  | productAnalysis (analysis : String)
  | recommendation (recs : List String)
  | error (msg : String)
deriving DecidableEq

/-- The type field of the result dictionary. -/
def AIResult.type : AIResult → String
  | .general _ => "general_response"
  | .productSearch _ _ => "product_search"
  | .productAnalysis _ => "product_analysis"
  | .recommendation _ => "recommendation"
  | .error _ => "error"

/-- Purchase keywords of openai_client.py line 246. -/
def purchaseKeywords : List String := ["price", "cost", "buy", "purchase"]

/-- Analysis keywords of openai_client.py line 254. -/
def analysisKeywords : List String := ["analyze", "review", "compare"]

/-- Recommendation keywords of openai_client.py line 259. -/
def recommendKeywords : List String := ["recommend", "suggest", "alternative"]

/-- any(keyword in prompt.lower() for keyword in kws) from
openai_client.py (lower_prompt is inlined, it is a pure computation). -/
def hasKw (kws : List String) (prompt : String) : Bool :=
  kws.any (fun k => pyIn k (pyLower prompt))

/-- The list comprehension of openai_client.py line 262: strip each line
of the text and keep the non-empty ones. -/
def nonEmptyLines (text : String) : List String :=
  ((pySplitNL text).map pyStrip).filter (fun r => !r.isEmpty)

/-- Intent classification of OpenAIClient.process_request, lines 241-270:
the response_dict starts as general_response and the first matching
keyword set overwrites it, so the net effect is this priority cascade. -/
def classifyOpenAI (prompt text : String) : AIResult :=
  if hasKw purchaseKeywords prompt then .productSearch prompt text
  else if hasKw analysisKeywords prompt then .productAnalysis text
  else if hasKw recommendKeywords prompt then .recommendation (nonEmptyLines text)
  else .general text

/-- Spec-side restatement of section 4.2 step 3, written from the words of
the spec: classify by case-insensitive substring match against four fixed
keyword sets in fixed priority order, purchase before analysis before
recommendation, otherwise general_response.  Used to compare the source
translation classifyOpenAI against the specified kind. -/
def specClassifyKind (prompt : String) : String :=
  if hasKw purchaseKeywords prompt then "product_search"
  else if hasKw analysisKeywords prompt then "product_analysis"
  else if hasKw recommendKeywords prompt then "recommendation"
  else "general_response"

/-- MockClient.process_request of mock_client.py: echo the prompt as a
general_response. -/
def mockProcessRequest (prompt : String) : AIResult :=
  .general prompt

/-- Shared lemma: the kind produced by the source classification equals
the kind the spec describes, for every prompt and extracted text. -/
theorem classifyOpenAI_type_eq_spec (prompt text : String) :
    (classifyOpenAI prompt text).type = specClassifyKind prompt := by
  unfold classifyOpenAI specClassifyKind
  cases hP : hasKw purchaseKeywords prompt <;>
    cases hA : hasKw analysisKeywords prompt <;>
      cases hR : hasKw recommendKeywords prompt <;>
        simp [AIResult.type]

/-- Environment seen by AIFactory.create_client: whether each credential
environment variable is set to a truthy (non-empty) value. -/
structure FactoryEnv where
  googleKey : Bool
  openaiKey : Bool

/-- Outcome of attempting to construct each real provider client
(import plus __init__): true means construction succeeds, false means it
raises.  MockClient construction is a trivial __init__ on a module of
this repository and always succeeds. -/
structure CtorBehavior where
  geminiOk : Bool
  openaiOk : Bool

/-- Which client class create_client returns. -/
inductive ClientKind where
  | gemini | openai | mock
deriving DecidableEq

/-- Dispatch of AIFactory.create_client (factory.py lines 66-102) after
the provider name has been lowercased: try Gemini when explicitly
requested or when no provider is given and the Google key is present;
then try OpenAI under the analogous condition; otherwise MockClient. -/
def createClientCore (env : FactoryEnv) (c : CtorBehavior)
    (p : Option String) : ClientKind :=
  if ((p == some "gemini") || (p.isNone && env.googleKey)) && c.geminiOk then
    .gemini
  else if ((p == some "openai") || (p.isNone && env.openaiKey)) && c.openaiOk then
    .openai
  else .mock

/-- AIFactory.create_client: lowercase an explicitly given provider, then
dispatch. -/
def createClient (env : FactoryEnv) (c : CtorBehavior)
    (provider : Option String) : ClientKind :=
  createClientCore env c (provider.map pyLower)

/-- Outcome of the three extraction loops inside the try block of
GeminiClient._extract_text: a returned string, no key or attribute
matched, or an exception was raised inside the try block. -/
inductive Extraction where
  | found (s : String)
  | noMatch
  | raised
deriving DecidableEq

/-- str(item.get("content") or item.get("text") or "") for one item of a
candidates list (gemini_client.py lines 64-67); a non-dict item is
rendered with str directly. -/
def candidateItemText (item : PyVal) : Except String String :=
  match item with
  | .vDict d =>
      let c := (dictGet d "content").getD .vNone
      let chosen :=
        if pyTruthy c then c
        else
          let t := (dictGet d "text").getD .vNone
          if pyTruthy t then t else .vStr ""
      pyStr chosen
  | _ => pyStr item

/-- Renders every item of a candidates list, propagating exceptions. -/
def candidatesParts : List PyVal → Except String (List String)
  | [] => .ok []
  | x :: xs => do pure ((← candidateItemText x) :: (← candidatesParts xs))

/-- Text for a truthy dict value (gemini_client.py lines 59-69): a list
value joins the non-empty rendered items with newlines, any other value
is rendered with str. -/
def dictValText (val : PyVal) : Except String String :=
  match val with
  | .vList items =>
      (candidatesParts items).map
        (fun parts => joinSep "\n" (parts.filter (fun p => !p.isEmpty)))
  | _ => pyStr val

/-- The key loop of _extract_text over output, text, content, candidates
(gemini_client.py lines 57-69): first key present with a truthy value
wins; rendering failure is a raised exception. -/
def goKeys : List String → List (String × PyVal) → Extraction
  | [], _ => .noMatch
  | k :: ks, d =>
      match dictGet d k with
      | some v =>
          if pyTruthy v then
            match dictValText v with
            | .ok s => .found s
            | .error _ => .raised
          else goKeys ks d
      | none => goKeys ks d

/-- The mapping-key stage of _extract_text. -/
def geminiDictCascade (d : List (String × PyVal)) : Extraction :=
  goKeys ["output", "text", "content", "candidates"] d

/-- getattr(raw, name, None): only embedded objects expose the attributes
text, output, content that the source probes. -/
def getAttrOpt (raw : PyVal) (name : String) : Option PyVal :=
  match raw with
  | .vObj attrs _ => dictGet attrs name
  | _ => none

/-- "\n".join(str(v) for v in val if v): render the truthy items of an
attribute list value, join all renderings. -/
def truthyItemsStr : List PyVal → Except String (List String)
  | [] => .ok []
  | v :: vs =>
      if pyTruthy v then do pure ((← pyStr v) :: (← truthyItemsStr vs))
      else truthyItemsStr vs

/-- Text for a truthy attribute value (gemini_client.py lines 72-77). -/
def attrValText (val : PyVal) : Except String String :=
  match val with
  | .vList items => (truthyItemsStr items).map (joinSep "\n")
  | _ => pyStr val

/-- The attribute loop of _extract_text over text, output, content. -/
def goAttrs : List String → PyVal → Extraction
  | [], _ => .noMatch
  | a :: rest, raw =>
      match getAttrOpt raw a with
      | some v =>
          if pyTruthy v then
            match attrValText v with
            | .ok s => .found s
            | .error _ => .raised
          else goAttrs rest raw
      | none => goAttrs rest raw

/-- The attribute stage of _extract_text. -/
def geminiAttrCascade (raw : PyVal) : Extraction :=
  goAttrs ["text", "output", "content"] raw

/-- The whole try block of _extract_text: the dict stage runs only for a
dict, the attribute loop runs when the dict stage fell through without
returning or raising. -/
def geminiTryBlock (raw : PyVal) : Extraction :=
  match raw with
  | .vDict d =>
      match geminiDictCascade d with
      | .noMatch => geminiAttrCascade raw
      | r => r
  | _ => geminiAttrCascade raw

/-- GeminiClient._extract_text (gemini_client.py lines 49-85): None is
mapped to the empty string up front; a returned string from the try block
is the answer; on fall-through or exception, str(raw) is tried, and a
raising str yields the empty string. -/
def geminiExtractText (raw : PyVal) : String :=
  match raw with
  | .vNone => ""
  | _ =>
      match geminiTryBlock raw with
      | .found s => s
      | _ =>
          match pyStr raw with
          | .ok s => s
          | .error _ => ""

/-- Spec-side restatement of section 4.2 step 2 written from the words of
the spec, for comparison with the source translation geminiExtractText:
try in order the value as a direct string, the known mapping keys, the
known object attributes, and finally the string form of the value; when
no strategy recovers a text, yield the empty string. -/
def specExtractText (raw : PyVal) : String :=
  match raw with
  | .vStr s => s
  | _ =>
      match (match raw with | .vDict d => geminiDictCascade d | _ => Extraction.noMatch) with
      | .found s => s
      | _ =>
          match geminiAttrCascade raw with
          | .found s => s
          | _ =>
              match pyStr raw with
              | .ok s => s
              | .error _ => ""

/-- Case-insensitive (ASCII) removal of a literal pattern from the front
of a char list: some remainder when the pattern matches, none
otherwise. -/
def dropCI : List Char → List Char → Option (List Char)
  | [], s => some s
  | _ :: _, [] => none
  | p :: ps, c :: cs => if p.toLower = c.toLower then dropCI ps cs else none

/-- Try each literal alternative in order, returning the remainder after
the first that matches. -/
def firstDrop : List (List Char) → List Char → Option (List Char)
  | [], _ => none
  | l :: ls, s =>
      match dropCI l s with
      | some r => some r
      | none => firstDrop ls s

/-- The regex sub of gemini_client.py line 156: remove a leading
system-style label (System:, Assistant:, [system], (system)),
case-insensitively, together with the whitespace around it; when no label
matches, the text is unchanged. -/
def stripSystemLabel (s : List Char) : List Char :=
  let rest := s.dropWhile pyIsSpaceC
  match firstDrop ["System:".data, "Assistant:".data, "[system]".data, "(system)".data] rest with
  | some r => r.dropWhile pyIsSpaceC
  | none => s

/-- The regex sub of gemini_client.py line 158: remove leading bracketed
metadata, a non-empty bracket group at the start, with surrounding
whitespace; otherwise the text is unchanged. -/
def stripBracketMeta (s : List Char) : List Char :=
  let rest := s.dropWhile pyIsSpaceC
  match rest with
  | '[' :: more =>
      let inner := more.takeWhile (fun c => c ≠ ']')
      match more.dropWhile (fun c => c ≠ ']') with
      | ']' :: tail => if inner.isEmpty then s else tail.dropWhile pyIsSpaceC
      | _ => s
  | _ => s

/-- ASCII word character for the regex word boundary after a greeting. -/
def isWordChar (c : Char) : Bool :=
  c.isAlphanum || c = '_'

/-- The replacement text for greeting patterns. -/
def salamRepl : List Char := "سلام! ".data

/-- The replacement text for the help and assist end patterns. -/
def persianHelp : List Char := "چطور می‌تونم کمکتون کنم؟".data

/-- One start-anchored greeting pattern of the greetings map, for example
Hello with a word boundary, optional punctuation and whitespace; returns
the substituted text when the pattern matches at the start. -/
def greetStart (word : List Char) (s : List Char) : Option (List Char) :=
  match dropCI word s with
  | none => none
  | some rest =>
      match rest with
      | [] => some salamRepl
      | c :: _ =>
          if isWordChar c then none
          else
            let r1 := rest.dropWhile (fun ch => [':', ',', '.', '!', '?'].contains ch)
            let r2 := r1.dropWhile pyIsSpaceC
            some (salamRepl ++ r2)

/-- One end-anchored phrase pattern of the greetings map, for example How
can I help you with an optional today and trailing question marks at the
end of the text; returns the substituted text when it matches. -/
def greetEnd (base : List Char) (s : List Char) : Option (List Char) :=
  let rev := s.reverse
  let r1 := rev.dropWhile (fun c => c = '?')
  let todayRev := " today".data.reverse
  let baseRev := base.reverse
  let withToday :=
    match dropCI todayRev r1 with
    | some r => dropCI baseRev r
    | none => none
  match withToday with
  | some preRev => some (preRev.reverse ++ persianHelp)
  | none =>
      match dropCI baseRev r1 with
      | some preRev => some (preRev.reverse ++ persianHelp)
      | none => none

/-- The greetings map of gemini_client.py lines 161-168 in dict order,
each entry as a substitution function. -/
def greetingFns : List (List Char → Option (List Char)) :=
  [greetStart "Hello".data, greetStart "Hi".data, greetStart "Hey".data,
   greetStart "Greetings".data,
   greetEnd "How can I help you".data, greetEnd "How can I assist you".data]

/-- The substitution loop of gemini_client.py lines 174-182: apply each
pattern in order and stop at the first one that changes the text. -/
def applyGreetingsAux : List (List Char → Option (List Char)) → List Char → List Char
  | [], s => s
  | f :: fs, s =>
      match f s with
      | some t => if t = s then applyGreetingsAux fs s else t
      | none => applyGreetingsAux fs s

/-- The greeting replacement pass of GeminiClient._clean_and_localize. -/
def applyGreetings (s : List Char) : List Char :=
  applyGreetingsAux greetingFns s

/-- GeminiClient._clean_and_localize (gemini_client.py lines 142-191):
empty text is returned as is; otherwise strip a system label, strip
bracketed metadata, run the greeting substitution loop, and trim.  The
prompt argument only feeds a prefer_persian flag that the method computes
and never uses, so it does not affect the result. -/
def geminiCleanAndLocalize (text prompt : String) : String :=
  if text.isEmpty then ""
  else
    let t1 := stripSystemLabel text.data
    let t2 := stripBracketMeta t1
    let t3 := applyGreetings t2
    pyStrip (String.mk t3)

/-- The message of the RuntimeError raised by GeminiClient.process_request
when no generation entry point was found (gemini_client.py line 130). -/
def geminiGenFailMsg : String :=
  "Failed to call generation API: \x27generate\x27 method not found on google.generativeai"

/-- GeminiClient.process_request (gemini_client.py lines 87-140).  The
_sync_generate helper swallows its own exceptions and returns None on any
failure, so its outcome is an optional raw value; a None outcome raises
RuntimeError which the outer handler converts to a plain error string.
The method returns a plain string in every case, not a structured
result. -/
def geminiProcessRequest (gen : Option PyVal) (prompt : String) : String :=
  match gen with
  | none => "خطا: " ++ geminiGenFailMsg
  | some raw => geminiCleanAndLocalize (geminiExtractText raw) prompt

/-- Python indexing x[0] as used on the choices value
(openai_client.py lines 199, 203): first element of a list, first
character of a string; any other receiver raises. -/
def pyIndex0 : PyVal → Option PyVal
  | .vStr s =>
      match s.data with
      | [] => none
      | c :: _ => some (.vStr (String.mk [c]))
  | .vList [] => none
  | .vList (x :: _) => some x
  | _ => none

/-- The choices lookup of openai_client.py lines 197-203: a dict response
uses get with default [], any other response uses getattr with default
[]. -/
def openaiChoices (resp : PyVal) : PyVal :=
  match resp with
  | .vDict d => (dictGet d "choices").getD (.vList [])
  | .vObj attrs _ => (dictGet attrs "choices").getD (.vList [])
  | _ => .vList []

/-- The per-choice text assignment of openai_client.py lines 208-224,
starting from the initial empty text: a dict choice prefers a dict
message content, else its text entry; an object choice prefers a message
attribute (content attribute, else dict content), else a text
attribute. -/
def choiceText (choice : PyVal) : PyVal :=
  match choice with
  | .vDict cd =>
      (match dictGet cd "message" with
       | some (.vDict md) => (dictGet md "content").getD (.vStr "")
       | _ =>
           match dictGet cd "text" with
           | some v => v
           | none => .vStr "")
  | .vObj attrs _ =>
      (match dictGet attrs "message" with
       | some msgv =>
           (match msgv with
            | .vObj mA _ => (dictGet mA "content").getD (.vStr "")
            | .vDict md => (dictGet md "content").getD (.vStr "")
            | _ => .vStr "")
       | none =>
           match dictGet attrs "text" with
           | some t => t
           | none => .vStr "")
  | _ => .vStr ""

/-- The inner try block of the extraction step of
OpenAIClient.process_request (lines 186-234): none means an exception was
raised inside the block, some gives the text computed before the
keyword classification.  A None response and an empty or unindexable
choices value raise; a non-string text is replaced by the empty string;
empty text falls back to str of the choice and then str of the
response. -/
def openaiInnerTry (resp : PyVal) : Option String :=
  match resp with
  | .vNone => none
  | _ =>
      let choices := openaiChoices resp
      if pyTruthy choices then
        match pyIndex0 choices with
        | none => none
        | some choice =>
            let textS :=
              match choiceText choice with
              | .vStr s => pyStrip s
              | _ => ""
            if !textS.isEmpty then some textS
            else
              match pyStr choice with
              | .error _ => none
              | .ok s1 =>
                  let t1 := pyStrip s1
                  if !t1.isEmpty then some t1
                  else
                    match pyStr resp with
                    | .error _ => none
                    | .ok s2 => some (pyStrip s2)
      else none

/-- The extraction step with its except handler (lines 236-239): on an
inner exception the text becomes str(response).strip() when the response
is truthy, else the empty string; a raising str propagates its exception
message to the outer boundary. -/
def openaiExtractResult (resp : PyVal) : Except String String :=
  match openaiInnerTry resp with
  | some t => .ok t
  | none =>
      if pyTruthy resp then
        match pyStr resp with
        | .ok s => .ok (pyStrip s)
        | .error m => .error m
      else .ok ""

/-- Outcome of the vendor API call step of process_request: either the
call raised an exception with the given message, or it produced a raw
response value (possibly None when an old SDK exposes no known entry
point). -/
inductive VendorOutcome where
  | raises (msg : String)
  | returns (resp : PyVal)

/-- OpenAIClient.process_request (openai_client.py lines 137-273): a
raised vendor call is caught at the outer boundary and converted to an
error result carrying the exception message; otherwise the extracted
text is classified by prompt keywords; an exception escaping the
extraction handler also reaches the outer boundary. -/
def openaiProcessRequest (outcome : VendorOutcome) (prompt : String) : AIResult :=
  match outcome with
  | .raises m => .error m
  | .returns resp =>
      match openaiExtractResult resp with
      | .error m => .error m
      | .ok text => classifyOpenAI prompt text

/-- State of the chat window pieces that on_send and _on_worker_finished
touch (src/ui/main_window.py): whether the input controls are enabled
(set_input_enabled drives the input field, the send button and the busy
bar together), the input field text, the chat transcript as sender-text
pairs, and the command handed to the worker thread. -/
structure UIState where
  inputEnabled : Bool
  inputField : String
  messages : List (String × String)
  workerCmd : Option String

/-- show_message: append a chat bubble. -/
def showMessage (st : UIState) (sender text : String) : UIState :=
  { st with messages := st.messages ++ [(sender, text)] }

/-- MainWindow.on_send (main_window.py lines 343-361): strip the input
field; an empty input returns unchanged; otherwise clear the field, echo
the user message, disable the input controls and hand the command to the
worker. -/
def onSend (st : UIState) : UIState :=
  let user_input := pyStrip st.inputField
  if user_input.isEmpty then st
  else
    let st1 := { st with inputField := "" }
    let st2 := showMessage st1 "شما" user_input
    { st2 with inputEnabled := false, workerCmd := some user_input }

/-- str of every element of a list for the recommendations join,
propagating exceptions. -/
def strAll : List PyVal → Except String (List String)
  | [] => .ok []
  | x :: xs => do pure ((← pyStr x) :: (← strAll xs))

/-- The try body of MainWindow._on_worker_finished (main_window.py lines
381-403): dispatch on the first truthy of the error, response, analysis,
recommendations entries, then the product_search case, then a fallback
rendering of the whole result; an error value models an exception raised
while rendering. -/
def workerBody (st : UIState) (result : PyVal) : Except String UIState :=
  match result with
  | .vDict d =>
      let err := (dictGet d "error").getD .vNone
      let resp := (dictGet d "response").getD .vNone
      let ana := (dictGet d "analysis").getD .vNone
      let recs := (dictGet d "recommendations").getD .vNone
      if pyTruthy err then (pyStr err).map (fun s => showMessage st "خطا" s)
      else if pyTruthy resp then (pyStr resp).map (fun s => showMessage st "سیستم" s)
      else if pyTruthy ana then (pyStr ana).map (fun s => showMessage st "تحلیل" s)
      else if pyTruthy recs then
        match recs with
        | .vList items =>
            (strAll items).map
              (fun ss => showMessage st "پیشنهادات" (joinSep "\n" ss))
        | _ => (pyStr recs).map (fun s => showMessage st "پیشنهادات" s)
      else
        let tv := (dictGet d "type").getD .vNone
        let isPS := match tv with | .vStr s => s == "product_search" | _ => false
        let sp := (dictGet d "search_params").getD .vNone
        if isPS && pyTruthy sp then
          match sp with
          | .vDict spd =>
              (pyStr ((dictGet spd "response").getD (.vStr ""))).map
                (fun s => showMessage st "سیستم" s)
          | _ => .error "AttributeError: get on a non-mapping"
        else (pyStr result).map (fun s => showMessage st "سیستم" s)
  | _ => (pyStr result).map (fun s => showMessage st "سیستم" s)

/-- MainWindow._on_worker_finished: run the try body; the finally clause
re-enables the input controls on every path, whether the body completed
or raised. -/
def onWorkerFinished (st : UIState) (result : PyVal) : UIState :=
  match workerBody st result with
  | .ok s => { s with inputEnabled := true }
  | .error _ => { st with inputEnabled := true }

/-- C1 counterexample: the claim fails on two points.  A vendor exception
whose message is empty (Python allows raising an exception with no
message) yields an error result with an empty payload, against the
claimed non-empty message; and the Gemini client returns a plain string
prefixed with a Persian error marker, not a structured result of kind
error. -/
theorem C1_counterexample :
    openaiProcessRequest (.raises "") "hello" = .error ""
    ∧ ("" : String).length = 0
    ∧ geminiProcessRequest none "hello" = "خطا: " ++ geminiGenFailMsg :=
  ⟨rfl, rfl, rfl⟩

/-- C1 amended: neither client propagates a raised exception.  The OpenAI
client converts a raised vendor call to an error result whose payload is
exactly the exception message, which may be empty; an exception escaping
the extraction handler also becomes an error result with its message.
The Gemini client converts every failure to a plain error string, not a
structured result. -/
theorem C1_amended (msg prompt : String) (resp : PyVal) :
    openaiProcessRequest (.raises msg) prompt = .error msg
    ∧ (openaiExtractResult resp = .error msg →
        openaiProcessRequest (.returns resp) prompt = .error msg)
    ∧ geminiProcessRequest none prompt = "خطا: " ++ geminiGenFailMsg := by
  refine ⟨rfl, ?_, rfl⟩
  intro h
  simp [openaiProcessRequest, h]

/-- C1 witness: a concrete response object whose str() raises makes the
extraction error reach the outer boundary as an error result. -/
theorem C1_witness :
    openaiProcessRequest (.returns (.vObj [] (.error "boom"))) "hello" = .error "boom" :=
  (C1_amended "boom" "hello" (.vObj [] (.error "boom"))).2.1
    (by simp [openaiExtractResult, openaiInnerTry, openaiChoices, dictGet,
              pyTruthy, pyStr, pyRepr])

/-- C2 counterexample: for the Gemini client a purchase-keyword prompt
with a successful vendor call returns the plain cleaned text of the
reply, a bare string with no product_search structure and no query
field, so the claim fails for that provider. -/
theorem C2_counterexample :
    geminiProcessRequest (some (.vStr "It costs 10")) "price of laptop" = "It costs 10" := by
  decide

/-- C2 amended: for the OpenAI client, a purchase-keyword prompt whose
vendor call returns a value with a defined string form yields a
product_search result whose query is the original prompt verbatim; the
Gemini client returns a plain string and never classifies. -/
theorem C2_amended (prompt : String) (resp : PyVal)
    (hk : hasKw purchaseKeywords prompt = true)
    (hs : ∃ s, pyStr resp = .ok s) :
    ∃ t, openaiProcessRequest (.returns resp) prompt = .productSearch prompt t := by
  obtain ⟨s, hsEq⟩ := hs
  have hex : ∃ t, openaiExtractResult resp = .ok t := by
    unfold openaiExtractResult
    cases hit : openaiInnerTry resp with
    | some t => exact ⟨t, rfl⟩
    | none =>
        cases htr : pyTruthy resp with
        | true => exact ⟨pyStrip s, by simp [hsEq]⟩
        | false => exact ⟨"", by simp⟩
  obtain ⟨t, ht⟩ := hex
  exact ⟨t, by simp [openaiProcessRequest, ht, classifyOpenAI, hk]⟩

/-- C2 witness: a concrete purchase prompt against a plain-string vendor
reply produces a product_search result echoing the prompt. -/
theorem C2_witness :
    ∃ t, openaiProcessRequest (.returns (.vStr "ok")) "buy a phone"
          = .productSearch "buy a phone" t :=
  C2_amended "buy a phone" (.vStr "ok") (by decide) ⟨"ok", rfl⟩

/-- C3: the result kind of a successful OpenAI request is the
case-insensitive keyword cascade the spec describes, with purchase before
analysis before recommendation before general, and the payload of each
branch as specified; in particular a prompt with both a purchase and a
recommendation keyword classifies as product_search, and a prompt with
no keyword classifies as general_response with the extracted text. -/
theorem C3_classification (prompt text : String) :
    (classifyOpenAI prompt text).type = specClassifyKind prompt
    ∧ (hasKw purchaseKeywords prompt = true →
        classifyOpenAI prompt text = .productSearch prompt text)
    ∧ (hasKw purchaseKeywords prompt = false → hasKw analysisKeywords prompt = true →
        classifyOpenAI prompt text = .productAnalysis text)
    ∧ (hasKw purchaseKeywords prompt = false → hasKw analysisKeywords prompt = false →
        hasKw recommendKeywords prompt = true →
        classifyOpenAI prompt text = .recommendation (nonEmptyLines text))
    ∧ (hasKw purchaseKeywords prompt = false → hasKw analysisKeywords prompt = false →
        hasKw recommendKeywords prompt = false →
        classifyOpenAI prompt text = .general text)
    ∧ (hasKw purchaseKeywords prompt = true → hasKw recommendKeywords prompt = true →
        (classifyOpenAI prompt text).type = "product_search") := by
  refine ⟨classifyOpenAI_type_eq_spec prompt text, ?_, ?_, ?_, ?_, ?_⟩
  · intro h1; simp [classifyOpenAI, h1]
  · intro h1 h2; simp [classifyOpenAI, h1, h2]
  · intro h1 h2 h3; simp [classifyOpenAI, h1, h2, h3]
  · intro h1 h2 h3; simp [classifyOpenAI, h1, h2, h3]
  · intro h1 h2; simp [classifyOpenAI, h1, AIResult.type]

/-- C3 witness: each keyword branch exercised on a concrete prompt. -/
theorem C3_witness :
    classifyOpenAI "what does it cost" "x" = .productSearch "what does it cost" "x"
    ∧ classifyOpenAI "please compare" "x" = .productAnalysis "x"
    ∧ classifyOpenAI "please recommend" "a\n\nb" = .recommendation (nonEmptyLines "a\n\nb")
    ∧ classifyOpenAI "hello there" "x" = .general "x"
    ∧ (classifyOpenAI "buy or recommend" "x").type = "product_search" :=
  ⟨(C3_classification "what does it cost" "x").2.1 (by decide),
   (C3_classification "please compare" "x").2.2.1 (by decide) (by decide),
   (C3_classification "please recommend" "a\n\nb").2.2.2.1 (by decide) (by decide) (by decide),
   (C3_classification "hello there" "x").2.2.2.2.1 (by decide) (by decide) (by decide),
   (C3_classification "buy or recommend" "x").2.2.2.2.2 (by decide) (by decide)⟩

/-- C4 counterexample: with provider gemini requested, Gemini
construction failing and OpenAI construction succeeding, create_client
returns the mock client, not the claimed OpenAI client: the OpenAI branch
is guarded by provider equal to openai and is never attempted. -/
theorem C4_counterexample :
    createClient ⟨false, false⟩ ⟨false, true⟩ (some "gemini") = .mock
    ∧ ClientKind.mock ≠ ClientKind.openai :=
  ⟨rfl, by decide⟩

/-- C4 amended: an explicit provider name is lowercased; an explicitly
requested provider that constructs successfully is returned; on its
construction failure create_client falls back directly to the mock
client, skipping the other real provider; the function is total, so
nothing escapes this boundary. -/
theorem C4_amended (env : FactoryEnv) (c : CtorBehavior) :
    createClient env c (some "GEMINI") = createClient env c (some "gemini")
    ∧ (c.geminiOk = true → createClient env c (some "gemini") = .gemini)
    ∧ (c.geminiOk = false → createClient env c (some "gemini") = .mock)
    ∧ (c.openaiOk = true → createClient env c (some "openai") = .openai)
    ∧ (c.openaiOk = false → createClient env c (some "openai") = .mock) := by
  have e1 : pyLower "GEMINI" = "gemini" := by decide
  have e2 : pyLower "gemini" = "gemini" := by decide
  have e3 : pyLower "openai" = "openai" := by decide
  refine ⟨?_, ?_, ?_, ?_, ?_⟩
  · simp [createClient, e1, e2]
  · intro h; simp [createClient, createClientCore, e2, h]
  · intro h; simp [createClient, createClientCore, e2, h]
  · intro h; simp [createClient, createClientCore, e3, h]
  · intro h; simp [createClient, createClientCore, e3, h]

/-- C4 witness: both construction outcomes for both explicit providers. -/
theorem C4_witness :
    createClient ⟨false, false⟩ ⟨true, true⟩ (some "gemini") = .gemini
    ∧ createClient ⟨false, false⟩ ⟨false, false⟩ (some "gemini") = .mock
    ∧ createClient ⟨false, false⟩ ⟨true, true⟩ (some "openai") = .openai
    ∧ createClient ⟨false, false⟩ ⟨false, false⟩ (some "openai") = .mock :=
  ⟨(C4_amended ⟨false, false⟩ ⟨true, true⟩).2.1 rfl,
   (C4_amended ⟨false, false⟩ ⟨false, false⟩).2.2.1 rfl,
   (C4_amended ⟨false, false⟩ ⟨true, true⟩).2.2.2.1 rfl,
   (C4_amended ⟨false, false⟩ ⟨false, false⟩).2.2.2.2 rfl⟩

/-- C5: with no provider argument and neither credential set,
create_client returns the mock client regardless of how the real
constructors would behave, and the mock processRequest always succeeds
with a general_response echoing the prompt. -/
theorem C5_noCredentialFallback (c : CtorBehavior) (p : String) :
    createClient ⟨false, false⟩ c none = .mock
    ∧ mockProcessRequest p = .general p
    ∧ (mockProcessRequest p).type = "general_response" := by
  refine ⟨?_, rfl, rfl⟩
  simp [createClient, createClientCore]

/-- C6: the mock client echoes every prompt as a general_response, in
particular the round trip on the prompt hello. -/
theorem C6_mockRoundTrip (p : String) :
    mockProcessRequest p = .general p
    ∧ (mockProcessRequest p).type = "general_response"
    ∧ mockProcessRequest "hello" = .general "hello" :=
  ⟨rfl, rfl, rfl⟩

/-- C7 counterexample: a prompt containing a recommendation keyword and
also a purchase keyword classifies as product_search, because purchase
keywords are checked first, so the claim as stated over every prompt
containing a recommendation keyword fails. -/
theorem C7_counterexample :
    (classifyOpenAI "buy recommend" "").type = "product_search"
    ∧ "product_search" ≠ "recommendation" :=
  ⟨rfl, by decide⟩

/-- C7 amended: for every prompt containing a recommendation keyword and
no purchase or analysis keyword, empty extracted text classifies as a
recommendation with an empty list, not an error. -/
theorem C7_amended (prompt : String)
    (h1 : hasKw recommendKeywords prompt = true)
    (h2 : hasKw purchaseKeywords prompt = false)
    (h3 : hasKw analysisKeywords prompt = false) :
    classifyOpenAI prompt "" = .recommendation [] := by
  have hempty : nonEmptyLines "" = [] := by decide
  simp [classifyOpenAI, h1, h2, h3, hempty]

/-- C7 witness: a concrete recommendation-only prompt with empty text. -/
theorem C7_witness : classifyOpenAI "please suggest" "" = .recommendation [] :=
  C7_amended "please suggest" (by decide) (by decide) (by decide)

/-- C8 counterexample: for the raw value None the extraction returns the
empty string directly, while the claimed final string-form strategy
would recover the text None, so the claimed strategy cascade fails at
None. -/
theorem C8_counterexample :
    geminiExtractText .vNone = "" ∧ specExtractText .vNone = "None" := by
  constructor
  · rfl
  · simp [specExtractText, geminiAttrCascade, goAttrs, getAttrOpt, pyStr, pyRepr]

/-- C8 amended: a None raw value short-circuits to empty text; for every
other raw value the extraction agrees exactly with the claimed cascade:
direct string, then the mapping keys output, text, content, candidates
with list items joined, then the attributes text, output, content, then
the string form of the value, and the empty string when nothing
recovers a text; the function is total. -/
theorem C8_amended (raw : PyVal) (h : raw ≠ PyVal.vNone) :
    geminiExtractText raw = specExtractText raw := by
  cases raw with
  | vNone => exact absurd rfl h
  | vStr s =>
      simp [geminiExtractText, geminiTryBlock, specExtractText,
            geminiAttrCascade, goAttrs, getAttrOpt, pyStr]
  | vList l =>
      simp [geminiExtractText, geminiTryBlock, specExtractText,
            geminiAttrCascade, goAttrs, getAttrOpt]
  | vDict d =>
      have hattr : geminiAttrCascade (.vDict d) = .noMatch := by
        simp [geminiAttrCascade, goAttrs, getAttrOpt]
      cases hd : geminiDictCascade d <;>
        simp [geminiExtractText, specExtractText, geminiTryBlock, hd, hattr]
  | vObj attrs r =>
      cases ha : geminiAttrCascade (.vObj attrs r) <;>
        simp [geminiExtractText, specExtractText, geminiTryBlock, ha]

/-- C8 witness: a direct string response extracts as itself under both
the source translation and the claimed cascade. -/
theorem C8_witness :
    geminiExtractText (.vStr "abc") = specExtractText (.vStr "abc") :=
  C8_amended (.vStr "abc") (by simp)

/-- C9: sending a non-empty input disables the input controls and hands
the stripped command to the single worker, and every completion path of
the worker-finished handler, including the exception path of its try
block, ends with the input controls enabled. -/
theorem C9_inputGating (st : UIState) (result : PyVal)
    (h : (pyStrip st.inputField).isEmpty = false) :
    (onSend st).inputEnabled = false
    ∧ (onSend st).workerCmd = some (pyStrip st.inputField)
    ∧ (onWorkerFinished st result).inputEnabled = true := by
  refine ⟨?_, ?_, ?_⟩
  · simp [onSend, h, showMessage]
  · simp [onSend, h, showMessage]
  · cases hb : workerBody st result <;> simp [onWorkerFinished, hb]

/-- C9 witness: a concrete send of a non-empty input followed by an error
result still ends with input enabled. -/
theorem C9_witness :
    (onSend ⟨true, " hi ", [], none⟩).inputEnabled = false
    ∧ (onSend ⟨true, " hi ", [], none⟩).workerCmd = some (pyStrip " hi ")
    ∧ (onWorkerFinished ⟨true, " hi ", [], none⟩
        (.vDict [("error", .vStr "boom")])).inputEnabled = true :=
  C9_inputGating ⟨true, " hi ", [], none⟩ (.vDict [("error", .vStr "boom")]) (by decide)

/-- C10: for the OpenAI client the classified kind depends only on the
prompt: two runs of the same prompt with different extracted texts get
the same kind. -/
theorem C10_kindDependsOnlyOnPrompt (prompt t1 t2 : String) :
    (classifyOpenAI prompt t1).type = (classifyOpenAI prompt t2).type := by
  rw [classifyOpenAI_type_eq_spec, classifyOpenAI_type_eq_spec]
